import Mathlib

/-!
# IsoDisplay — Display Synchronization & Playback Engine: verification

Shallow embedding of the display player component (`DisplayPlayer`) and the
display page poller (`fetchDisplay`) of the IsoDisplay repository, together
with proofs settling the frozen specification claims.

Modelling conventions:
* JavaScript numbers used as indices/durations are modelled as `Int`
  (the player computes `currentIndex === 0 ? items.length - 1 : currentIndex - 1`,
  which can be negative for an empty item list, and `(i + 1) % n` uses JS
  truncated remainder, modelled with `Int.tmod`).
* React state and refs of the component are collected in one `PlayerState`
  record.  `useRef` cells (`timerRef`, `hasInitialized`, `viewStartTimeRef`)
  do not participate in effect dependency comparison; React state does.
* `setTimeout`/`clearTimeout` are modelled with explicit timer identifiers:
  `pending` holds the identifier of the armed dwell timer (if any) and
  `timerSeq` is a fresh-identifier counter.  Expiry of a timer is an explicit
  `Event.timerFire id` event which has an effect only when `pending = some id`
  (a cleared or replaced timeout never fires).  Real-time durations are
  abstracted into the ordering of events.
* Wall-clock timestamps (`viewStartTimeRef`, the measured view duration sent
  by `trackView`) are not observable by any claim and are omitted; the
  tracking record keeps the content reference, the expected duration and the
  `completed`/`skipped` flags.
* Network telemetry (`sendStatusUpdate`, `trackView` POSTs) is modelled as
  append-only logs carried in the state.
* React re-runs the playback-timer effect when one of its dependencies
  changes (`Object.is` comparison) .  Every dependency change in the source
  is either a structural change of `(currentItem, isPlaying, currentIndex,
  playlist)` or the installation of a freshly constructed playlist object
  (`applyPlaylist` / the cached-playlist substitution), so the step function
  re-runs the effect exactly when the structural dependencies changed or a
  fresh playlist was installed.
-/

namespace IsoDisplay

/-- A playlist item (`PlaylistItem`): the fields read by the player.
`content.fileUrl`, used only for advisory preloading, is omitted. -/
structure PlaylistItem where
  id : String
  contentId : String
  order : Int
  duration : Int
  transition : String
  transitionDuration : Int
  contentType : String
deriving DecidableEq

/-- A playlist (`Playlist`): identity plus an ordered item sequence.  The
item sequence is optional because the source repeatedly guards against a
missing `items` array (`nextPlaylist.items || []`, `a.items || []`). -/
structure Playlist where
  id : String
  items : Option (List PlaylistItem)
deriving DecidableEq

/-- `p.items || []` — the item sequence with a missing array read as empty. -/
def itemsOf (p : Playlist) : List PlaylistItem :=
  p.items.getD []

/-- The normalized playlist built by `applyPlaylist`:
`{ ...nextPlaylist, items: nextPlaylist.items || [] }`. -/
def normalize (p : Playlist) : Playlist :=
  { p with items := some (itemsOf p) }

/-- JavaScript array indexing `l[i]` with an `Int` index: `none` when the
index is negative or past the end (JS yields `undefined` there). -/
def jsGet (l : List PlaylistItem) (i : Int) : Option PlaylistItem :=
  if 0 ≤ i then l.get? i.toNat else none

/-- The per-index item comparison inside the `playlistsEqual` loop: the loop
returns `false` as soon as one of the six compared fields differs. -/
def itemFieldsEqual (a b : PlaylistItem) : Bool :=
  a.id == b.id &&
  a.contentId == b.contentId &&
  a.order == b.order &&
  a.duration == b.duration &&
  a.transition == b.transition &&
  a.transitionDuration == b.transitionDuration

/-- The indexed loop of `playlistsEqual` (`for i in 0..len-1`), walking both
item sequences positionally. -/
def itemsEqualLoop : List PlaylistItem → List PlaylistItem → Bool
  | [], [] => true
  | a :: as, b :: bs => itemFieldsEqual a b && itemsEqualLoop as bs
  | _, _ => false

/-- `playlistsEqual` (part_000:80-106): `false` when either argument is
null, then structural comparison of playlist id, item count, and the six
per-item fields. -/
def playlistsEqual : Option Playlist → Option Playlist → Bool
  | none, _ => false
  | _, none => false
  | some a, some b =>
    if a.id != b.id then false
    else
      let itemsA := itemsOf a
      let itemsB := itemsOf b
      if itemsA.length != itemsB.length then false
      else itemsEqualLoop itemsA itemsB

/-- One `/api/tracking/view` record emitted by `trackView`: the content
reference of the item being left, its expected duration, and the
completed/skipped flags (timestamps abstracted away). -/
structure TrackRecord where
  contentId : String
  expectedDuration : Int
  completed : Bool
  skipped : Bool
deriving DecidableEq

/-- The state of one mounted `DisplayPlayer`: React state (`playlist`,
`currentIndex`, `currentItem`, `nextItem`, `isPlaying`), refs
(`hasInitialized`, the dwell timer), and the outbound telemetry logs. -/
structure PlayerState where
  displayId : String
  playlist : Playlist
  currentIndex : Int
  currentItem : Option PlaylistItem
  nextItem : Option PlaylistItem
  isPlaying : Bool
  hasInitialized : Bool
  pending : Option Nat
  timerSeq : Nat
  statusLog : List (String × Int)
  trackLog : List TrackRecord
deriving DecidableEq

/-- `sendStatusUpdate(state, index)` — fire-and-forget telemetry. -/
def sendStatus (s : PlayerState) (st : String) (idx : Int) : PlayerState :=
  { s with statusLog := s.statusLog ++ [(st, idx)] }

/-- `trackView(completed, skipped)` (part_000:213-238): records a view of
the current item; returns without recording when no item is current. -/
def trackView (s : PlayerState) (completed skipped : Bool) : PlayerState :=
  match s.currentItem with
  | none => s
  | some it =>
    { s with trackLog := s.trackLog ++
        [⟨it.contentId, it.duration, completed, skipped⟩] }

/-- `moveToNextItem` (part_000:241-280): no-op on an empty playlist; on a
single-item playlist only the view timer restarts (not modelled); otherwise
records the current view as completed, advances the index with wraparound,
updates current/next item and sends a status update. -/
def moveToNextItem (s : PlayerState) : PlayerState :=
  let items := itemsOf s.playlist
  if items.length = 0 then s
  else if items.length = 1 then s
  else
    let s1 := trackView s true false
    let nextIndex : Int := (s1.currentIndex + 1).tmod items.length
    let followingIndex : Int := (nextIndex + 1).tmod items.length
    let s2 := { s1 with
      currentIndex := nextIndex,
      currentItem := jsGet items nextIndex,
      nextItem := jsGet items followingIndex }
    sendStatus s2 (if s2.isPlaying then "playing" else "paused") nextIndex

/-- `handleRemoteControl(action, value)` (part_000:283-330): the remote
transport command switch.  Unknown actions fall through with no effect. -/
def handleRemoteControl (s : PlayerState) (action : String) (value : Option Int) :
    PlayerState :=
  let items := itemsOf s.playlist
  if action = "play" then
    sendStatus { s with isPlaying := true } "playing" s.currentIndex
  else if action = "pause" then
    sendStatus { s with isPlaying := false } "paused" s.currentIndex
  else if action = "stop" then
    sendStatus { s with isPlaying := false, currentIndex := 0,
                        currentItem := jsGet items 0 } "paused" 0
  else if action = "restart" then
    sendStatus { s with currentIndex := 0, currentItem := jsGet items 0,
                        isPlaying := true } "playing" 0
  else if action = "next" then
    moveToNextItem (trackView s false true)
  else if action = "previous" then
    let s1 := trackView s false true
    let prevIndex : Int :=
      if s1.currentIndex = 0 then (items.length : Int) - 1 else s1.currentIndex - 1
    sendStatus { s1 with currentIndex := prevIndex,
                         currentItem := jsGet items prevIndex }
      (if s1.isPlaying then "playing" else "paused") prevIndex
  else if action = "seek" then
    match value with
    | some v =>
      if 0 ≤ v ∧ v < (items.length : Int) then
        sendStatus { s with currentIndex := v, currentItem := jsGet items v }
          (if s.isPlaying then "playing" else "paused") v
      else s
    | none => s
  else s

/-- `applyPlaylist(nextPlaylist, force)` (part_000:110-155), the Reconciler:
a null candidate returns immediately; otherwise the candidate is normalized
and, unless `force` is unset, the player is initialized and the normalized
candidate is structurally equal to the held playlist, the player is
reinitialized on it (dwell timer cleared, index 0, current/next item reset,
initialization flag set).  The returned flag reports whether the candidate
was applied (and hence whether fresh playlist/item objects were installed
as React state). -/
def applyPlaylist (s : PlayerState) (nextPlaylist : Option Playlist) (force : Bool) :
    PlayerState × Bool :=
  match nextPlaylist with
  | none => (s, false)
  | some p =>
    let normalizedPlaylist := normalize p
    if force = false ∧ s.hasInitialized = true ∧
        playlistsEqual (some normalizedPlaylist) (some s.playlist) = true then
      (s, false)
    else
      let items := itemsOf normalizedPlaylist
      ({ s with
          playlist := normalizedPlaylist,
          pending := none,
          currentIndex := 0,
          currentItem := items.get? 0,
          nextItem := items.get? 1,
          hasInitialized := true }, true)

/-- Targets of an emergency-stop broadcast: `'all'` or an explicit id list. -/
inductive StopTargets where
  | all
  | ids (l : List String)
deriving DecidableEq

/-- `stopMsg.data.displayIds === 'all' || stopMsg.data.displayIds.includes(display.id)`. -/
def stopMatches : StopTargets → String → Bool
  | .all, _ => true
  | .ids l, d => l.contains d

/-- The asynchronous event sources feeding one mounted player: WebSocket
`playlist_update` / `display_control` / `emergency_stop` messages, an
`initialPlaylist` prop change from the page, a connection-status change
(with the cached playlist available at that moment), and the expiry of a
dwell timer. -/
inductive Event where
  | playlistUpdate (displayIds : List String) (p : Option Playlist)
  | displayControl (displayId : String) (action : String) (value : Option Int)
  | emergencyStop (targets : StopTargets)
  | propUpdate (p : Playlist)
  | connStatus (status : String) (cached : Option Playlist)
  | timerFire (id : Nat)

/-- Process one event through the component's handlers (part_000:157-210,
169-180, 333-352 callback).  Returns the updated state and whether a
freshly-constructed playlist object was installed as React state (which
forces the playback-timer effect to re-run even when the new state is
structurally equal to the old). -/
def processEvent (e : Event) (s : PlayerState) : PlayerState × Bool :=
  match e with
  | .playlistUpdate ids p =>
    if ids.contains s.displayId then applyPlaylist s p false else (s, false)
  | .displayControl did action value =>
    if did = s.displayId then (handleRemoteControl s action value, false)
    else (s, false)
  | .emergencyStop targets =>
    if stopMatches targets s.displayId then
      (sendStatus { s with isPlaying := false } "paused" s.currentIndex, false)
    else (s, false)
  | .propUpdate p =>
    if s.hasInitialized = false then applyPlaylist s (some p) true
    else if playlistsEqual (some p) (some s.playlist) = false then
      applyPlaylist s (some p) false
    else (s, false)
  | .connStatus st cached =>
    if st = "disconnected" ∨ st = "error" then
      match cached with
      | some c => if c.id ≠ s.playlist.id then ({ s with playlist := c }, true)
                  else (s, false)
      | none => (s, false)
    else (s, false)
  | .timerFire id =>
    if s.pending = some id then
      (moveToNextItem { s with pending := none }, false)
    else (s, false)

/-- The structural dependencies of the playback-timer effect
(part_000:333-360): `currentItem`, `isPlaying`, `playlist.items.length`,
and `moveToNextItem`, whose `useCallback` identity changes with
`currentIndex`, `playlist.items` and (through `trackView`) `playlist.id`. -/
def deps (s : PlayerState) : Option PlaylistItem × Bool × Int × Playlist :=
  (s.currentItem, s.isPlaying, s.currentIndex, s.playlist)

/-- The playback-timer effect body (part_000:333-360): cancel any armed
dwell timer, then arm a fresh one exactly when playing, a current item is
set, and the playlist has at least two items. -/
def runTimerEffect (s : PlayerState) : PlayerState :=
  if s.isPlaying = true ∧ s.currentItem ≠ none ∧ 1 < (itemsOf s.playlist).length then
    { s with pending := some s.timerSeq, timerSeq := s.timerSeq + 1 }
  else { s with pending := none }

/-- One step of the player: process the event, then re-run the playback
timer effect if a dependency changed or a fresh playlist object was
installed. -/
def step (e : Event) (s : PlayerState) : PlayerState :=
  let r := processEvent e s
  if r.2 = true ∨ deps s ≠ deps r.1 then runTimerEffect r.1 else r.1

/-- The `useState` initializers of a freshly mounted player
(part_000:31-45). -/
def initBase (did : String) (p : Playlist) : PlayerState :=
  { displayId := did
    playlist := p
    currentIndex := 0
    currentItem := (itemsOf p).get? 0
    nextItem := (itemsOf p).get? 1
    isPlaying := true
    hasInitialized := false
    pending := none
    timerSeq := 0
    statusLog := []
    trackLog := [] }

/-- A freshly mounted player after its mount effects: the forced
`applyPlaylist(initialPlaylist, true)` (part_000:157-161) followed by the
playback-timer effect. -/
def initState (did : String) (p : Playlist) : PlayerState :=
  runTimerEffect (applyPlaylist (initBase did p) (some p) true).1

/-- The player states reachable from some mounted player through the
modelled event sources. -/
inductive Reachable : PlayerState → Prop where
  | init (did : String) (p : Playlist) : Reachable (initState did p)
  | next (e : Event) {s : PlayerState} : Reachable s → Reachable (step e s)

/-- Trace reachability from a given state. -/
inductive ReachFrom : PlayerState → PlayerState → Prop where
  | refl (s : PlayerState) : ReachFrom s s
  | next (e : Event) {s t : PlayerState} : ReachFrom s t → ReachFrom s (step e t)

/-! ## The display page poller (`src/app/display/[url]/page.tsx`) -/

/-- The body of a successful `/api/display/[url]` response, as read by
`fetchDisplay`: the display payload with its optionally assigned playlist. -/
structure FetchData where
  assignedPlaylist : Option Playlist
deriving DecidableEq

/-- What `fetchDisplay` does with a successful response: either force a full
page reload (hard resynchronization) or update the page's held playlist in
place (together with the error banner state). -/
inductive FetchOutcome where
  | reload
  | update (playlist : Option Playlist) (error : Option String)
deriving DecidableEq

/-- `playlist?.items?.length` — `none` models JavaScript `undefined` (a
missing playlist or a missing items array). -/
def itemsLenOpt : Option Playlist → Option Nat
  | none => none
  | some p => p.items.map List.length

/-- `fetchDisplay(isPolling)` on a successful response
(page.tsx:76-119): during polling, when both the held and the incoming
playlist exist and their ids or their item counts differ, the page forces a
full reload instead of patching in place; otherwise the incoming assigned
playlist (possibly null) becomes the held playlist and the error banner is
cleared. -/
def fetchDisplay (isPolling : Bool) (held : Option Playlist) (data : FetchData) :
    FetchOutcome :=
  let playlistChanged : Bool :=
    match data.assignedPlaylist, held with
    | some np, some hp =>
      decide (hp.id ≠ np.id) || decide (itemsLenOpt (some hp) ≠ itemsLenOpt (some np))
    | _, _ => false
  if isPolling = true ∧ playlistChanged = true then .reload
  else
    match data.assignedPlaylist with
    | some ap => .update (some ap) none
    | none => .update none none

/-- The page's held playlist after a successful poll response: an in-place
update takes it directly; a hard resync reloads the page, whose initial
(non-polling) fetch of the same response then installs it. -/
def heldAfterPoll (held : Option Playlist) (data : FetchData) : Option Playlist :=
  match fetchDisplay true held data with
  | .reload =>
    match fetchDisplay false none data with
    | .update p _ => p
    | .reload => none
  | .update p _ => p

/-! ## Spec-side definitions

These two definitions follow the words of the specification claims (not the
source); they exist to be compared with the source-derived `playlistsEqual`
and to state refuted claims. -/

/-- Spec wording (claim C2): a positional item matches when item identity,
content reference, order, duration, transition kind and transition duration
all agree. -/
def specItemMatches (a b : PlaylistItem) : Prop :=
  a.id = b.id ∧ a.contentId = b.contentId ∧ a.order = b.order ∧
  a.duration = b.duration ∧ a.transition = b.transition ∧
  a.transitionDuration = b.transitionDuration

/-- Spec wording (claim C2): two playlists match structurally when their
ids agree and their item sequences match positionally (`List.Forall₂`
forces equal item counts). -/
def specPlaylistsMatch (a b : Playlist) : Prop :=
  a.id = b.id ∧ List.Forall₂ specItemMatches (itemsOf a) (itemsOf b)

/-- Claim C3's enumeration of the fields that make two playlists
"structurally identical": playlist id, item count, and per-item
identity/order/duration/transition — omitting the content reference and the
transition duration. -/
def claimItemMatchesC3 (a b : PlaylistItem) : Bool :=
  a.id == b.id && a.order == b.order && a.duration == b.duration &&
  a.transition == b.transition

/-- Claim C3's structural identity of playlists, positionally over
`claimItemMatchesC3`. -/
def claimPlaylistsEqualC3 (a b : Playlist) : Bool :=
  a.id == b.id && (itemsOf a).length == (itemsOf b).length &&
  (List.zip (itemsOf a) (itemsOf b)).all fun ab => claimItemMatchesC3 ab.1 ab.2

/-! ## Concrete fixtures

Small concrete playlists and player runs used by witnesses and
counterexamples. -/

/-- A five-second image item. -/
def itemA : PlaylistItem := ⟨"item-a", "content-a", 0, 5, "fade", 1, "image"⟩

/-- A seven-second video item. -/
def itemB : PlaylistItem := ⟨"item-b", "content-b", 1, 7, "cut", 2, "video"⟩

/-- `itemA` with a different content reference but the same item id, order,
duration and transition kind. -/
def itemAvar : PlaylistItem := ⟨"item-a", "content-x", 0, 5, "fade", 1, "image"⟩

/-- A two-item playlist. -/
def plTwo : Playlist := ⟨"pl-2", some [itemA, itemB]⟩

/-- `plTwo` with the first item's content reference changed. -/
def plTwoVar : Playlist := ⟨"pl-2", some [itemAvar, itemB]⟩

/-- A single-item playlist. -/
def plOne : Playlist := ⟨"pl-1", some [itemA]⟩

/-- A playlist with an empty item sequence. -/
def plEmpty : Playlist := ⟨"pl-0", some []⟩

/-- A playlist with the same id as `plTwo` but a different item order. -/
def plTwoSameId : Playlist := ⟨"pl-2", some [itemB, itemA]⟩

/-- A player freshly mounted on the two-item playlist. -/
def playerTwo : PlayerState := initState "disp-1" plTwo

/-- `playerTwo` after its first dwell timer fired: playing at index 1. -/
def playerAtOne : PlayerState := step (Event.timerFire 0) playerTwo

/-- `playerTwo` after a remote `seek(0)` to the index it is already at. -/
def playerSeekSame : PlayerState :=
  step (Event.displayControl "disp-1" "seek" (some 0)) playerTwo

/-- A player mounted on an empty playlist, after a disconnection substituted
the cached two-item playlist. -/
def playerStuck : PlayerState :=
  step (Event.connStatus "disconnected" (some plTwo)) (initState "disp-1" plEmpty)

/-- A player freshly mounted on the single-item playlist. -/
def playerOne : PlayerState := initState "disp-1" plOne

/-! ## Invariants of the player state machine -/

/-- The timer-discipline invariant: no dwell timer is armed for a playlist
of at most one item, and a dwell timer is armed whenever the player is
playing a current item of a multi-item playlist. -/
def Inv (s : PlayerState) : Prop :=
  ((itemsOf s.playlist).length ≤ 1 → s.pending = none) ∧
  (2 ≤ (itemsOf s.playlist).length → s.isPlaying = true → s.currentItem ≠ none →
    s.pending ≠ none)

/-- Armed timer identifiers are always below the fresh-identifier counter. -/
def TimerBound (s : PlayerState) : Prop :=
  ∀ u, s.pending = some u → u < s.timerSeq

/-- Timer identifier `t` is dead in state `s`: it is not the armed timer and
can never be re-armed (the counter has moved past it). -/
def DeadTimer (t : Nat) (s : PlayerState) : Prop :=
  s.pending ≠ some t ∧ t < s.timerSeq

/-! ## The structural comparison agrees with the specification wording -/

theorem itemFieldsEqual_iff (a b : PlaylistItem) :
    itemFieldsEqual a b = true ↔ specItemMatches a b := by
  simp [itemFieldsEqual, specItemMatches, Bool.and_eq_true, and_assoc]

theorem itemsEqualLoop_iff (as bs : List PlaylistItem) :
    itemsEqualLoop as bs = true ↔ List.Forall₂ specItemMatches as bs := by
  induction as generalizing bs with
  | nil =>
    cases bs <;> simp [itemsEqualLoop]
  | cons a as ih =>
    cases bs with
    | nil => simp [itemsEqualLoop]
    | cons b bs =>
      simp [itemsEqualLoop, Bool.and_eq_true, itemFieldsEqual_iff, ih,
        List.forall₂_cons]

theorem playlistsEqual_iff (a b : Playlist) :
    playlistsEqual (some a) (some b) = true ↔ specPlaylistsMatch a b := by
  unfold playlistsEqual specPlaylistsMatch
  by_cases hid : a.id = b.id
  · by_cases hlen : (itemsOf a).length = (itemsOf b).length
    · simp [hid, hlen, itemsEqualLoop_iff]
    · have hnf : ¬ List.Forall₂ specItemMatches (itemsOf a) (itemsOf b) :=
        fun hf => hlen hf.length_eq
      simp [hid, hlen, bne_iff_ne, hnf]
  · simp [hid, bne_iff_ne]

/-! ## Preservation lemmas for the player operations -/

@[simp] theorem sendStatus_pending (s : PlayerState) (st : String) (i : Int) :
    (sendStatus s st i).pending = s.pending := rfl

@[simp] theorem sendStatus_timerSeq (s : PlayerState) (st : String) (i : Int) :
    (sendStatus s st i).timerSeq = s.timerSeq := rfl

@[simp] theorem sendStatus_playlist (s : PlayerState) (st : String) (i : Int) :
    (sendStatus s st i).playlist = s.playlist := rfl

@[simp] theorem sendStatus_trackLog (s : PlayerState) (st : String) (i : Int) :
    (sendStatus s st i).trackLog = s.trackLog := rfl

theorem trackView_eta (s : PlayerState) (c k : Bool) :
    trackView s c k = { s with trackLog := (trackView s c k).trackLog } := by
  unfold trackView; split <;> rfl

@[simp] theorem trackView_pending (s : PlayerState) (c k : Bool) :
    (trackView s c k).pending = s.pending := by
  unfold trackView; split <;> rfl

@[simp] theorem trackView_timerSeq (s : PlayerState) (c k : Bool) :
    (trackView s c k).timerSeq = s.timerSeq := by
  unfold trackView; split <;> rfl

@[simp] theorem trackView_playlist (s : PlayerState) (c k : Bool) :
    (trackView s c k).playlist = s.playlist := by
  unfold trackView; split <;> rfl

@[simp] theorem trackView_currentIndex (s : PlayerState) (c k : Bool) :
    (trackView s c k).currentIndex = s.currentIndex := by
  unfold trackView; split <;> rfl

@[simp] theorem trackView_currentItem (s : PlayerState) (c k : Bool) :
    (trackView s c k).currentItem = s.currentItem := by
  unfold trackView; split <;> rfl

@[simp] theorem trackView_isPlaying (s : PlayerState) (c k : Bool) :
    (trackView s c k).isPlaying = s.isPlaying := by
  unfold trackView; split <;> rfl

@[simp] theorem moveToNextItem_pending (s : PlayerState) :
    (moveToNextItem s).pending = s.pending := by
  unfold moveToNextItem; simp only []; split_ifs <;> simp [sendStatus]

@[simp] theorem moveToNextItem_timerSeq (s : PlayerState) :
    (moveToNextItem s).timerSeq = s.timerSeq := by
  unfold moveToNextItem; simp only []; split_ifs <;> simp [sendStatus]

@[simp] theorem moveToNextItem_playlist (s : PlayerState) :
    (moveToNextItem s).playlist = s.playlist := by
  unfold moveToNextItem; simp only []; split_ifs <;> simp [sendStatus]

@[simp] theorem moveToNextItem_isPlaying (s : PlayerState) :
    (moveToNextItem s).isPlaying = s.isPlaying := by
  unfold moveToNextItem; simp only []; split_ifs <;> simp [sendStatus]

theorem moveToNextItem_small (s : PlayerState)
    (h : (itemsOf s.playlist).length ≤ 1) : moveToNextItem s = s := by
  unfold moveToNextItem
  simp only []
  rcases Nat.le_one_iff_eq_zero_or_eq_one.mp h with h0 | h1
  · simp [h0]
  · simp [h1]

theorem moveToNextItem_currentIndex (s : PlayerState)
    (h : 1 < (itemsOf s.playlist).length) :
    (moveToNextItem s).currentIndex =
      (s.currentIndex + 1).tmod ((itemsOf s.playlist).length : Int) := by
  unfold moveToNextItem
  simp only []
  have h0 : ¬ (itemsOf s.playlist).length = 0 := by omega
  have h1 : ¬ (itemsOf s.playlist).length = 1 := by omega
  simp [h0, h1, sendStatus]

theorem tmod_succ_ne (i : Int) (n : Nat) (hn : 2 ≤ n) :
    (i + 1).tmod (n : Int) ≠ i := by
  intro h
  have hd := Int.tdiv_add_tmod (i + 1) (n : Int)
  rw [h] at hd
  have hq : (n : Int) * ((i + 1).tdiv (n : Int)) = 1 := by omega
  have hdvd : (n : Int) ∣ 1 := ⟨_, hq.symm⟩
  have hle : (n : Int) ≤ 1 := Int.le_of_dvd (by norm_num) hdvd
  omega

theorem moveToNextItem_index_ne (s : PlayerState)
    (h : 2 ≤ (itemsOf s.playlist).length) :
    (moveToNextItem s).currentIndex ≠ s.currentIndex := by
  rw [moveToNextItem_currentIndex s (by omega)]
  exact tmod_succ_ne s.currentIndex (itemsOf s.playlist).length h

theorem handleRemoteControl_pending (s : PlayerState) (a : String) (v : Option Int) :
    (handleRemoteControl s a v).pending = s.pending := by
  unfold handleRemoteControl
  simp only []
  split_ifs <;> (try cases v) <;> (try simp [sendStatus]) <;>
    split_ifs <;> simp [sendStatus]

theorem handleRemoteControl_timerSeq (s : PlayerState) (a : String) (v : Option Int) :
    (handleRemoteControl s a v).timerSeq = s.timerSeq := by
  unfold handleRemoteControl
  simp only []
  split_ifs <;> (try cases v) <;> (try simp [sendStatus]) <;>
    split_ifs <;> simp [sendStatus]

theorem handleRemoteControl_playlist (s : PlayerState) (a : String) (v : Option Int) :
    (handleRemoteControl s a v).playlist = s.playlist := by
  unfold handleRemoteControl
  simp only []
  split_ifs <;> (try cases v) <;> (try simp [sendStatus]) <;>
    split_ifs <;> simp [sendStatus]

theorem applyPlaylist_timerSeq (s : PlayerState) (np : Option Playlist) (f : Bool) :
    ((applyPlaylist s np f).1).timerSeq = s.timerSeq := by
  unfold applyPlaylist
  cases np
  · rfl
  · simp only []; split_ifs <;> rfl

theorem applyPlaylist_pending_cases (s : PlayerState) (np : Option Playlist) (f : Bool) :
    ((applyPlaylist s np f).1).pending = s.pending ∨
    ((applyPlaylist s np f).1).pending = none := by
  unfold applyPlaylist
  cases np
  · exact Or.inl rfl
  · simp only []; split_ifs
    · exact Or.inl rfl
    · exact Or.inr rfl

theorem applyPlaylist_not_applied (s : PlayerState) (np : Option Playlist) (f : Bool)
    (h : (applyPlaylist s np f).2 = false) : (applyPlaylist s np f).1 = s := by
  unfold applyPlaylist at h ⊢
  cases np
  · rfl
  · simp only [] at h ⊢
    split_ifs at h ⊢
    rfl

@[simp] theorem runTimerEffect_playlist (s : PlayerState) :
    (runTimerEffect s).playlist = s.playlist := by
  unfold runTimerEffect; split_ifs <;> rfl

@[simp] theorem runTimerEffect_currentIndex (s : PlayerState) :
    (runTimerEffect s).currentIndex = s.currentIndex := by
  unfold runTimerEffect; split_ifs <;> rfl

@[simp] theorem runTimerEffect_currentItem (s : PlayerState) :
    (runTimerEffect s).currentItem = s.currentItem := by
  unfold runTimerEffect; split_ifs <;> rfl

@[simp] theorem runTimerEffect_isPlaying (s : PlayerState) :
    (runTimerEffect s).isPlaying = s.isPlaying := by
  unfold runTimerEffect; split_ifs <;> rfl

@[simp] theorem runTimerEffect_statusLog (s : PlayerState) :
    (runTimerEffect s).statusLog = s.statusLog := by
  unfold runTimerEffect; split_ifs <;> rfl

@[simp] theorem runTimerEffect_trackLog (s : PlayerState) :
    (runTimerEffect s).trackLog = s.trackLog := by
  unfold runTimerEffect; split_ifs <;> rfl

@[simp] theorem runTimerEffect_hasInitialized (s : PlayerState) :
    (runTimerEffect s).hasInitialized = s.hasInitialized := by
  unfold runTimerEffect; split_ifs <;> rfl

theorem deps_eq_iff (s t : PlayerState) :
    deps s = deps t ↔
      s.currentItem = t.currentItem ∧ s.isPlaying = t.isPlaying ∧
      s.currentIndex = t.currentIndex ∧ s.playlist = t.playlist := by
  simp [deps, Prod.ext_iff]

theorem processEvent_timerSeq (e : Event) (s : PlayerState) :
    ((processEvent e s).1).timerSeq = s.timerSeq := by
  cases e with
  | playlistUpdate ids p =>
    simp only [processEvent]; split_ifs
    · exact applyPlaylist_timerSeq s p false
    · rfl
  | displayControl did a v =>
    simp only [processEvent]; split_ifs
    · exact handleRemoteControl_timerSeq s a v
    · rfl
  | emergencyStop targets =>
    simp only [processEvent]; split_ifs <;> rfl
  | propUpdate p =>
    simp only [processEvent]; split_ifs
    · exact applyPlaylist_timerSeq s (some p) true
    · exact applyPlaylist_timerSeq s (some p) false
    · rfl
  | connStatus st cached =>
    simp only [processEvent]; split_ifs
    · cases cached
      · rfl
      · simp only []; split_ifs <;> rfl
    · rfl
  | timerFire id =>
    simp only [processEvent]; split_ifs
    · exact moveToNextItem_timerSeq _
    · rfl

theorem processEvent_pending (e : Event) (s : PlayerState) :
    ((processEvent e s).1).pending = s.pending ∨
    ((processEvent e s).1).pending = none := by
  cases e with
  | playlistUpdate ids p =>
    simp only [processEvent]; split_ifs
    · exact applyPlaylist_pending_cases s p false
    · exact Or.inl rfl
  | displayControl did a v =>
    simp only [processEvent]; split_ifs
    · exact Or.inl (handleRemoteControl_pending s a v)
    · exact Or.inl rfl
  | emergencyStop targets =>
    simp only [processEvent]; split_ifs <;> exact Or.inl rfl
  | propUpdate p =>
    simp only [processEvent]; split_ifs
    · exact applyPlaylist_pending_cases s (some p) true
    · exact applyPlaylist_pending_cases s (some p) false
    · exact Or.inl rfl
  | connStatus st cached =>
    simp only [processEvent]; split_ifs
    · cases cached
      · exact Or.inl rfl
      · simp only []; split_ifs <;> exact Or.inl rfl
    · exact Or.inl rfl
  | timerFire id =>
    simp only [processEvent]; split_ifs
    · exact Or.inr (by simp)
    · exact Or.inl rfl

/-! ## Invariant preservation -/

theorem fire_noop (s : PlayerState) (t : Nat) (h : s.pending ≠ some t) :
    step (Event.timerFire t) s = s := by
  unfold step
  have hp : processEvent (Event.timerFire t) s = (s, false) := by
    simp only [processEvent]
    rw [if_neg h]
  rw [hp]
  simp

theorem inv_transfer {s t : PlayerState} (hd : deps s = deps t)
    (hp : t.pending = s.pending) (h : Inv s) : Inv t := by
  obtain ⟨hit, hplay, hidx, hpl⟩ := (deps_eq_iff s t).mp hd
  unfold Inv at h ⊢
  rw [hp, ← hpl, ← hplay, ← hit]
  exact h

theorem inv_runTimerEffect (s : PlayerState) : Inv (runTimerEffect s) := by
  unfold Inv runTimerEffect
  split_ifs with h
  · refine ⟨fun hlen => absurd hlen ?_, fun _ _ _ => by simp⟩
    have := h.2.2
    simp only [itemsOf] at this ⊢
    omega
  · refine ⟨fun _ => rfl, fun h2 hplay hit => ?_⟩
    exact absurd ⟨hplay, hit, by simp only [itemsOf] at h2 ⊢; omega⟩ h

theorem inv_step (e : Event) (s : PlayerState) (h : Inv s) : Inv (step e s) := by
  unfold step
  by_cases hr : (processEvent e s).2 = true ∨ deps s ≠ deps (processEvent e s).1
  · rw [if_pos hr]; exact inv_runTimerEffect _
  · rw [if_neg hr]
    push_neg at hr
    obtain ⟨hfr, hdep⟩ := hr
    replace hfr : (processEvent e s).2 = false := by simpa using hfr
    cases e with
    | playlistUpdate ids p =>
      simp only [processEvent] at hfr hdep ⊢
      split_ifs at hfr hdep ⊢ with hc
      · rw [applyPlaylist_not_applied s p false hfr]; exact h
      · exact h
    | displayControl did a v =>
      simp only [processEvent] at hfr hdep ⊢
      split_ifs at hfr hdep ⊢
      · exact inv_transfer hdep (handleRemoteControl_pending s a v) h
      · exact h
    | emergencyStop targets =>
      simp only [processEvent] at hfr hdep ⊢
      split_ifs at hfr hdep ⊢
      · exact inv_transfer hdep rfl h
      · exact h
    | propUpdate p =>
      simp only [processEvent] at hfr hdep ⊢
      split_ifs at hfr hdep ⊢
      · rw [applyPlaylist_not_applied s (some p) true hfr]; exact h
      · rw [applyPlaylist_not_applied s (some p) false hfr]; exact h
      · exact h
    | connStatus st cached =>
      simp only [processEvent] at hfr hdep ⊢
      split_ifs at hfr hdep ⊢
      · cases cached with
        | none => exact h
        | some c =>
          simp only [] at hfr hdep ⊢
          split_ifs at hfr hdep ⊢
          exact h
      · exact h
    | timerFire id =>
      simp only [processEvent] at hfr hdep ⊢
      split_ifs at hfr hdep ⊢ with hc
      · by_cases hl : 2 ≤ (itemsOf s.playlist).length
        · exfalso
          have hne : (moveToNextItem { s with pending := none }).currentIndex ≠
              s.currentIndex :=
            moveToNextItem_index_ne { s with pending := none } hl
          have := ((deps_eq_iff _ _).mp hdep).2.2.1
          exact hne this.symm
        · rw [moveToNextItem_small _ (by simpa using Nat.le_of_not_lt hl)]
          refine ⟨fun _ => rfl, fun h2 _ _ => ?_⟩
          simp only [itemsOf] at h2 hl
          omega
      · exact h

theorem reachable_inv {s : PlayerState} (h : Reachable s) : Inv s := by
  induction h with
  | init did p => exact inv_runTimerEffect _
  | next e hs ih => exact inv_step e _ ih

theorem tb_runTimerEffect (s : PlayerState) : TimerBound (runTimerEffect s) := by
  unfold TimerBound runTimerEffect
  split_ifs <;> intro u hu
  · simp only [Option.some.injEq] at hu
    simp [← hu]
  · exact absurd hu (by simp)

theorem tb_step (e : Event) (s : PlayerState) (h : TimerBound s) :
    TimerBound (step e s) := by
  unfold step
  by_cases hr : (processEvent e s).2 = true ∨ deps s ≠ deps (processEvent e s).1
  · rw [if_pos hr]; exact tb_runTimerEffect _
  · rw [if_neg hr]
    intro u hu
    rw [processEvent_timerSeq]
    rcases processEvent_pending e s with hp | hp
    · exact h u (hp ▸ hu)
    · rw [hp] at hu; cases hu

theorem reachable_tb {s : PlayerState} (h : Reachable s) : TimerBound s := by
  induction h with
  | init did p => exact tb_runTimerEffect _
  | next e hs ih => exact tb_step e _ ih

theorem dead_runTimerEffect (s : PlayerState) (t : Nat) (h : t < s.timerSeq) :
    DeadTimer t (runTimerEffect s) := by
  unfold DeadTimer runTimerEffect
  split_ifs <;> constructor <;> simp <;> omega

theorem dead_step (e : Event) {s : PlayerState} (t : Nat) (h : DeadTimer t s) :
    DeadTimer t (step e s) := by
  unfold step
  by_cases hr : (processEvent e s).2 = true ∨ deps s ≠ deps (processEvent e s).1
  · rw [if_pos hr]
    exact dead_runTimerEffect _ t (by rw [processEvent_timerSeq]; exact h.2)
  · rw [if_neg hr]
    constructor
    · rcases processEvent_pending e s with hp | hp
      · rw [hp]; exact h.1
      · rw [hp]; simp
    · rw [processEvent_timerSeq]; exact h.2

theorem dead_reachFrom {s t : PlayerState} (u : Nat) (h : ReachFrom s t)
    (hd : DeadTimer u s) : DeadTimer u t := by
  induction h with
  | refl s => exact hd
  | next e hr ih => exact dead_step e u (ih hd)

/-! ## Claim theorems -/

/-- Claim C1, counterexample to the claim as stated: reconciling a null
candidate with `applyPlaylist` is not applied at all — on a never-initialized
player holding a non-empty playlist it leaves the state byte-for-byte
unchanged: the held playlist still has its two items (no empty
"no playlist assigned" state is installed) and the player still looks
never-initialized (nothing distinguishes it from the "currently unknown"
state). -/
theorem c1_counterexample :
    applyPlaylist (initBase "disp-1" plTwo) none false =
      (initBase "disp-1" plTwo, false) ∧
    (initBase "disp-1" plTwo).hasInitialized = false ∧
    itemsOf (applyPlaylist (initBase "disp-1" plTwo) none false).1.playlist =
      [itemA, itemB] :=
  ⟨rfl, rfl, rfl⟩

/-- Claim C1 (amended): for every held state and force flag, reconciling a
null candidate playlist is never applied: `applyPlaylist` returns
immediately (`if (!nextPlaylist) return`), leaving the held state — playlist,
index, current item and initialization flag — unchanged and reporting that
nothing was applied. -/
theorem c1_null_candidate_ignored (s : PlayerState) (force : Bool) :
    applyPlaylist s none force = (s, false) := rfl

/-- Claim C2: for a non-null candidate, `applyPlaylist` applies it exactly
when `force` is set, or the player has never been initialized, or the
normalized candidate differs from the held playlist in playlist id, item
count, or some positional item's (id, contentId, order, duration,
transition, transitionDuration) — the spec-side structural comparison
`specPlaylistsMatch` (object identity does not exist in this structural
model, so apply is a function of field values alone); and whenever it
applies, the installed playlist is the candidate with a missing item
sequence normalized to the empty sequence. -/
theorem c2_reconcile_decision (s : PlayerState) (p : Playlist) (force : Bool) :
    ((applyPlaylist s (some p) force).2 = true ↔
      (force = true ∨ s.hasInitialized = false ∨
        ¬ specPlaylistsMatch (normalize p) s.playlist)) ∧
    ((applyPlaylist s (some p) force).2 = true →
      (applyPlaylist s (some p) force).1.playlist =
        { p with items := some (itemsOf p) }) := by
  unfold applyPlaylist
  simp only []
  split_ifs with hc
  · obtain ⟨hf, hi, hpe⟩ := hc
    have hmatch := (playlistsEqual_iff (normalize p) s.playlist).mp hpe
    refine ⟨⟨fun hfalse => absurd hfalse (by simp), ?_⟩,
      fun hfalse => absurd hfalse (by simp)⟩
    rintro (h1 | h2 | h3)
    · rw [hf] at h1; cases h1
    · rw [hi] at h2; cases h2
    · exact absurd hmatch h3
  · refine ⟨⟨fun _ => ?_, fun _ => rfl⟩, fun _ => rfl⟩
    by_cases hf : force = true
    · exact Or.inl hf
    by_cases hi : s.hasInitialized = false
    · exact Or.inr (Or.inl hi)
    refine Or.inr (Or.inr fun hm => ?_)
    exact hc ⟨by simpa using hf, by simpa using hi,
      (playlistsEqual_iff _ _).mpr hm⟩

/-- Witness for C2: a never-initialized player applies the candidate and
installs it normalized. -/
theorem c2_witness :
    (applyPlaylist (initBase "disp-1" plTwo) (some plTwo) false).2 = true ∧
    (applyPlaylist (initBase "disp-1" plTwo) (some plTwo) false).1.playlist =
      { plTwo with items := some (itemsOf plTwo) } := by
  have h := c2_reconcile_decision (initBase "disp-1" plTwo) plTwo false
  have happ : (applyPlaylist (initBase "disp-1" plTwo) (some plTwo) false).2 = true :=
    h.1.mpr (Or.inr (Or.inl rfl))
  exact ⟨happ, h.2 happ⟩

/-- Claim C3, counterexample to the claim as stated: `playerAtOne` is an
initialized player (playing `plTwo` at index 1 with dwell timer 1 armed);
the candidate `plTwoVar` agrees with the held playlist on every field the
claim enumerates — playlist id, item count, per-item id/order/duration/
transition (`claimPlaylistsEqualC3`) — yet applying it without force
produces an observable change: the index resets from 1 to 0 and the armed
dwell timer is cleared, because the source comparison also checks the
content reference, which differs. -/
theorem c3_counterexample :
    playerAtOne.hasInitialized = true ∧
    claimPlaylistsEqualC3 (normalize plTwoVar) playerAtOne.playlist = true ∧
    playerAtOne.currentIndex = 1 ∧
    (applyPlaylist playerAtOne (some plTwoVar) false).1.currentIndex = 0 ∧
    playerAtOne.pending = some 1 ∧
    (applyPlaylist playerAtOne (some plTwoVar) false).1.pending = none :=
  ⟨by decide, by decide, by decide, by decide, by decide, by decide⟩

/-- Claim C3 (amended): applying a candidate is idempotent when the
candidate is structurally identical to the held playlist in playlist id,
item count, and per-item identity/content reference/order/duration/
transition/transition duration (the full field set `playlistsEqual`
compares): for every initialized player, such an apply without force
returns the state completely unchanged — no timer reset, no index change,
no re-render. -/
theorem c3_apply_idempotent (s : PlayerState) (p : Playlist)
    (hinit : s.hasInitialized = true)
    (heq : playlistsEqual (some (normalize p)) (some s.playlist) = true) :
    applyPlaylist s (some p) false = (s, false) := by
  unfold applyPlaylist
  simp only []
  rw [if_pos ⟨trivial, hinit, heq⟩]

/-- Witness for C3: re-applying the playlist the player is already on
changes nothing. -/
theorem c3_witness :
    applyPlaylist playerTwo (some plTwo) false = (playerTwo, false) :=
  c3_apply_idempotent playerTwo plTwo (by decide) (by decide)

/-- Claim C4, counterexample to the claim as stated: on a freshly mounted
two-item player the dwell timer 0 is armed for the current item at index 0;
a `seek(0)` to the index the player is already at is valid and is acted on,
but it changes none of the playback-timer effect dependencies, so the old
timer stays armed (`pending = some 0`) and when it expires it still
advances the player to index 1 — a dwell-timer advance from before the
seek fires after it. -/
theorem c4_counterexample :
    playerTwo.pending = some 0 ∧
    playerSeekSame.currentIndex = 0 ∧
    playerSeekSame.pending = some 0 ∧
    (step (Event.timerFire 0) playerSeekSame).currentIndex = 1 :=
  ⟨by decide, by decide, by decide, by decide⟩

/-- Claim C4 (amended): for every reachable player state with an armed
dwell timer `t` and every valid seek target `i` different from the current
index, processing the seek makes the index `i`, and the old timer `t` can
never fire an advance afterwards: in every state reachable from the
post-seek state, the `timerFire t` event is a no-op (the timeout was
cleared by the re-armed playback-timer effect and its identifier is never
reused). -/
theorem c4_seek_cancels_timer (s : PlayerState) (t : Nat) (i : Int)
    (hreach : Reachable s) (harm : s.pending = some t)
    (h0 : 0 ≤ i) (hlen : i < ((itemsOf s.playlist).length : Int))
    (hne : i ≠ s.currentIndex) :
    (step (Event.displayControl s.displayId "seek" (some i)) s).currentIndex = i ∧
    ∀ s2, ReachFrom (step (Event.displayControl s.displayId "seek" (some i)) s) s2 →
      step (Event.timerFire t) s2 = s2 := by
  have ht : t < s.timerSeq := reachable_tb hreach t harm
  have hproc : processEvent (Event.displayControl s.displayId "seek" (some i)) s =
      (handleRemoteControl s "seek" (some i), false) := by
    simp [processEvent]
  have hidx : (handleRemoteControl s "seek" (some i)).currentIndex = i := by
    simp [handleRemoteControl, sendStatus, h0, hlen]
  have hseq : (handleRemoteControl s "seek" (some i)).timerSeq = s.timerSeq :=
    handleRemoteControl_timerSeq s "seek" (some i)
  have hdep : deps s ≠ deps (handleRemoteControl s "seek" (some i)) := by
    intro hd
    have hcomp := ((deps_eq_iff _ _).mp hd).2.2.1
    rw [hidx] at hcomp
    exact hne hcomp.symm
  have hstep : step (Event.displayControl s.displayId "seek" (some i)) s =
      runTimerEffect (handleRemoteControl s "seek" (some i)) := by
    unfold step
    rw [hproc]
    exact if_pos (Or.inr hdep)
  have hdead : DeadTimer t
      (step (Event.displayControl s.displayId "seek" (some i)) s) := by
    rw [hstep]
    exact dead_runTimerEffect _ t (by rw [hseq]; exact ht)
  constructor
  · rw [hstep, runTimerEffect_currentIndex, hidx]
  · intro s2 hr2
    exact fire_noop s2 t (dead_reachFrom t hr2 hdead).1

/-- Witness for C4: on the freshly mounted two-item player (armed timer 0,
index 0), a `seek(1)` moves the index to 1 and the old timer 0 never acts
again. -/
theorem c4_witness :
    (step (Event.displayControl playerTwo.displayId "seek" (some 1))
        playerTwo).currentIndex = 1 ∧
    ∀ s2, ReachFrom (step (Event.displayControl playerTwo.displayId "seek" (some 1))
        playerTwo) s2 →
      step (Event.timerFire 0) s2 = s2 :=
  c4_seek_cancels_timer playerTwo 0 1 (Reachable.init "disp-1" plTwo)
    (by decide) (by decide) (by decide) (by decide)

/-- Claim C5, counterexample to the claim as stated: a player mounted on a
playlist whose item sequence is empty has no current item; when a
disconnection substitutes the cached two-item playlist, the resulting
reachable state is Playing with a two-item playlist and no dwell timer
armed — refuting "playlists of length at least two always have a live
timer while playing". -/
theorem c5_counterexample :
    Reachable playerStuck ∧
    (itemsOf playerStuck.playlist).length = 2 ∧
    playerStuck.isPlaying = true ∧
    playerStuck.pending = none :=
  ⟨Reachable.next (Event.connStatus "disconnected" (some plTwo))
      (Reachable.init "disp-1" plEmpty),
    by decide, by decide, by decide⟩

/-- Claim C5 (amended): in every reachable player state, a playlist with
exactly one item never auto-advances — no dwell timer is armed and every
timer-expiry event is a complete no-op — and a playlist with two or more
items has a live dwell timer armed whenever the player is Playing and a
current item is set (the current item can only be unset when a cache
substitution replaced an empty playlist, as in the counterexample). -/
theorem c5_timer_discipline (s : PlayerState) (hreach : Reachable s) :
    ((itemsOf s.playlist).length = 1 →
      s.pending = none ∧ ∀ t, step (Event.timerFire t) s = s) ∧
    (2 ≤ (itemsOf s.playlist).length → s.isPlaying = true →
      s.currentItem ≠ none → s.pending ≠ none) := by
  have hinv := reachable_inv hreach
  refine ⟨fun h1 => ?_, hinv.2⟩
  have hp : s.pending = none := hinv.1 (by omega)
  exact ⟨hp, fun t => fire_noop s t (by rw [hp]; simp)⟩

/-- Witness for C5: the single-item player has no timer armed and timer
expiry leaves it untouched. -/
theorem c5_witness :
    playerOne.pending = none ∧ step (Event.timerFire 0) playerOne = playerOne := by
  have h := (c5_timer_discipline playerOne (Reachable.init "disp-1" plOne)).1
    (by decide)
  exact ⟨h.1, h.2 0⟩

/-- Claim C6: during polling, a response whose playlist item count differs
from the held playlist's item count forces a hard resynchronization (a full
page reload) — the items themselves are never inspected, so this holds even
when the common prefix is structurally identical; and when the playlist id
and the item count are unchanged (only content within items may differ),
the response is applied in place with no resync. -/
theorem c6_hard_resync_on_count_drift (hp np : Playlist) :
    ((itemsOf hp).length ≠ (itemsOf np).length →
      fetchDisplay true (some hp) ⟨some np⟩ = FetchOutcome.reload) ∧
    (∀ la lb, hp.items = some la → np.items = some lb → la.length = lb.length →
      np.id = hp.id →
      fetchDisplay true (some hp) ⟨some np⟩ = FetchOutcome.update (some np) none) := by
  constructor
  · intro hne
    have hlo : itemsLenOpt (some hp) ≠ itemsLenOpt (some np) := by
      unfold itemsLenOpt
      unfold itemsOf at hne
      cases hh : hp.items <;> cases hn : np.items <;>
        rw [hh, hn] at hne <;> simp [hh, hn] at hne ⊢ <;> omega
    unfold fetchDisplay
    simp only []
    rw [if_pos ⟨trivial, by simp [hlo]⟩]
  · intro la lb hla hlb hlen hid
    unfold fetchDisplay
    simp only []
    rw [if_neg]
    rintro ⟨-, hch⟩
    simp [hid, itemsLenOpt, hla, hlb, hlen] at hch

/-- Witness for C6: a 1-item response against a held 2-item playlist
reloads; a content-only change with stable structure updates in place. -/
theorem c6_witness :
    fetchDisplay true (some plTwo) ⟨some plOne⟩ = FetchOutcome.reload ∧
    fetchDisplay true (some plTwo) ⟨some plTwoVar⟩ =
      FetchOutcome.update (some plTwoVar) none :=
  ⟨(c6_hard_resync_on_count_drift plTwo plOne).1 (by decide),
   (c6_hard_resync_on_count_drift plTwo plTwoVar).2 [itemA, itemB]
     [itemAvar, itemB] rfl rfl rfl rfl⟩

/-- Claim C7: an emergency-stop message whose targets match this display
(broadcast to all, or an id list containing it) forces the Paused state
regardless of the current play/pause state — the step ends with
`isPlaying = false` for every starting state — leaves the current item
index unchanged, and reports the pause at that unchanged index. -/
theorem c7_emergency_stop (targets : StopTargets) (s : PlayerState)
    (hmatch : stopMatches targets s.displayId = true) :
    (step (Event.emergencyStop targets) s).isPlaying = false ∧
    (step (Event.emergencyStop targets) s).currentIndex = s.currentIndex ∧
    (step (Event.emergencyStop targets) s).statusLog =
      s.statusLog ++ [("paused", s.currentIndex)] := by
  have hproc : processEvent (Event.emergencyStop targets) s =
      (sendStatus { s with isPlaying := false } "paused" s.currentIndex, false) := by
    simp only [processEvent]
    rw [if_pos hmatch]
  unfold step
  rw [hproc]
  by_cases hb : deps s ≠
      deps (sendStatus { s with isPlaying := false } "paused" s.currentIndex)
  · rw [if_pos (Or.inr hb)]
    simp [sendStatus]
  · rw [if_neg]
    · simp [sendStatus]
    · rintro (h | h)
      · exact absurd h (by simp)
      · exact hb h

/-- Witness for C7: broadcast to all while Playing at index 1 pauses and
keeps index 1. -/
theorem c7_witness :
    (step (Event.emergencyStop StopTargets.all) playerAtOne).isPlaying = false ∧
    (step (Event.emergencyStop StopTargets.all) playerAtOne).currentIndex =
      playerAtOne.currentIndex :=
  ⟨(c7_emergency_stop StopTargets.all playerAtOne rfl).1,
   (c7_emergency_stop StopTargets.all playerAtOne rfl).2.1⟩

/-- Claim C8: a remote `seek` is acted on exactly when its value is a
number `i` with `0 ≤ i < itemCount` — the index then becomes `i`, the
current item becomes item `i`, and the play/pause status is untouched —
while every out-of-range or non-numeric value leaves the player state
completely unchanged (the handler is a total function: nothing is raised
or propagated). -/
theorem c8_seek_validation (s : PlayerState) (v : Option Int) :
    (∀ i, v = some i → 0 ≤ i → i < ((itemsOf s.playlist).length : Int) →
      (handleRemoteControl s "seek" v).currentIndex = i ∧
      (handleRemoteControl s "seek" v).currentItem = jsGet (itemsOf s.playlist) i ∧
      (handleRemoteControl s "seek" v).isPlaying = s.isPlaying) ∧
    ((∀ i, v = some i → i < 0 ∨ ((itemsOf s.playlist).length : Int) ≤ i) →
      handleRemoteControl s "seek" v = s) := by
  constructor
  · rintro i rfl h0 hl
    simp [handleRemoteControl, sendStatus, h0, hl]
  · intro hbad
    cases v with
    | none => simp [handleRemoteControl]
    | some i =>
      have hni : ¬ (0 ≤ i ∧ i < ((itemsOf s.playlist).length : Int)) := by
        rintro ⟨ha, hb⟩
        rcases hbad i rfl with h | h <;> omega
      simp [handleRemoteControl, hni]

/-- Witness for C8: `seek(1)` on the two-item player moves to index 1;
`seek(5)` and a non-numeric value change nothing. -/
theorem c8_witness :
    (handleRemoteControl playerTwo "seek" (some 1)).currentIndex = 1 ∧
    handleRemoteControl playerTwo "seek" (some 5) = playerTwo ∧
    handleRemoteControl playerTwo "seek" none = playerTwo :=
  ⟨((c8_seek_validation playerTwo (some 1)).1 1 rfl (by decide) (by decide)).1,
   (c8_seek_validation playerTwo (some 5)).2
     (by rintro i hi; injection hi with hi; subst hi; right; decide),
   (c8_seek_validation playerTwo none).2 (by rintro i hi; cases hi)⟩

/-- Claim C9, counterexample to the claim as stated: while disconnected,
a cached snapshot playlist with the same playlist id as the held playlist
but different items is NOT substituted — the connection-status effect only
substitutes when the cached playlist's id differs from the held playlist's
id, so the held state stays the held playlist and never becomes the cached
one. -/
theorem c9_counterexample :
    plTwoSameId ≠ playerTwo.playlist ∧
    step (Event.connStatus "disconnected" (some plTwoSameId)) playerTwo =
      playerTwo ∧
    (step (Event.connStatus "disconnected" (some plTwoSameId)) playerTwo).playlist ≠
      plTwoSameId :=
  ⟨by decide, by decide, by decide⟩

/-- Claim C9 (amended): when the connection status becomes disconnected or
error, the cached snapshot playlist is substituted as the held playlist
exactly when its playlist id differs from the held playlist's id (a same-id
cache is ignored and the state is unchanged); and a successful poll
response always takes precedence over the cache: whatever playlist the page
held before — cache-substituted or not — after the poll (including through
a hard-resync reload) the held playlist is the response's playlist. -/
theorem c9_cache_fallback (s : PlayerState) (c : Playlist) (st : String)
    (hst : st = "disconnected" ∨ st = "error") :
    ((c.id ≠ s.playlist.id →
        (step (Event.connStatus st (some c)) s).playlist = c) ∧
      (c.id = s.playlist.id → step (Event.connStatus st (some c)) s = s)) ∧
    (∀ (q : Playlist) (held : Option Playlist),
      heldAfterPoll held ⟨some q⟩ = some q) := by
  constructor
  · constructor
    · intro hne
      have hproc : processEvent (Event.connStatus st (some c)) s =
          ({ s with playlist := c }, true) := by
        simp only [processEvent]
        rw [if_pos hst]
        rw [if_pos hne]
      unfold step
      rw [hproc]
      rw [if_pos (Or.inl rfl)]
      simp
    · intro heq
      have hproc : processEvent (Event.connStatus st (some c)) s = (s, false) := by
        simp only [processEvent]
        rw [if_pos hst]
        rw [if_neg (by simp [heq])]
      unfold step
      rw [hproc]
      simp
  · intro q held
    have hupd : fetchDisplay true held ⟨some q⟩ = FetchOutcome.reload ∨
        fetchDisplay true held ⟨some q⟩ = FetchOutcome.update (some q) none := by
      unfold fetchDisplay
      simp only []
      split_ifs
      · exact Or.inl rfl
      · exact Or.inr rfl
    unfold heldAfterPoll
    rcases hupd with h | h <;> rw [h] <;> rfl

/-- Witness for C9: a differently-named cached playlist is substituted on
disconnect, and a poll response carrying `plTwo` is held afterwards no
matter what was held before. -/
theorem c9_witness :
    (step (Event.connStatus "disconnected" (some plOne)) playerTwo).playlist =
      plOne ∧
    heldAfterPoll (some plOne) ⟨some plTwo⟩ = some plTwo := by
  have h := c9_cache_fallback playerTwo plOne "disconnected" (Or.inl rfl)
  exact ⟨h.1.1 (by decide), h.2 plTwo (some plOne)⟩

/-- Claim C10: on a playlist with at least two items, the remote `next`
command emits two view-tracking records for the single item being left:
first one marked skipped (not completed) from the command handler itself,
then one marked completed (not skipped) from `moveToNextItem`, which it
delegates to — both computed from the same pre-advance current item. -/
theorem c10_next_double_tracking (s : PlayerState) (it : PlaylistItem)
    (h2 : 2 ≤ (itemsOf s.playlist).length) (hit : s.currentItem = some it) :
    (handleRemoteControl s "next" none).trackLog =
      s.trackLog ++ [⟨it.contentId, it.duration, false, true⟩,
                     ⟨it.contentId, it.duration, true, false⟩] := by
  have hnext : handleRemoteControl s "next" none =
      moveToNextItem (trackView s false true) := by
    simp [handleRemoteControl]
  rw [hnext]
  have htv : trackView s false true =
      { s with trackLog :=
          s.trackLog ++ [⟨it.contentId, it.duration, false, true⟩] } := by
    unfold trackView
    rw [hit]
  rw [htv]
  unfold moveToNextItem
  simp only []
  rw [if_neg (show ¬ (itemsOf s.playlist).length = 0 by omega),
    if_neg (show ¬ (itemsOf s.playlist).length = 1 by omega)]
  have htv2 : ∀ c k : Bool,
      (trackView { s with trackLog :=
          s.trackLog ++ [⟨it.contentId, it.duration, false, true⟩] } c k).trackLog =
        s.trackLog ++ [⟨it.contentId, it.duration, false, true⟩] ++
          [⟨it.contentId, it.duration, c, k⟩] := by
    intro c k
    unfold trackView
    rw [show ({ s with trackLog :=
        s.trackLog ++ [⟨it.contentId, it.duration, false, true⟩] } :
          PlayerState).currentItem = some it from hit]
  simp [sendStatus, htv2]

/-- Witness for C10: `next` on the freshly mounted two-item player logs a
skipped record then a completed record for `itemA`. -/
theorem c10_witness :
    (handleRemoteControl playerTwo "next" none).trackLog =
      playerTwo.trackLog ++ [⟨itemA.contentId, itemA.duration, false, true⟩,
                             ⟨itemA.contentId, itemA.duration, true, false⟩] :=
  c10_next_double_tracking playerTwo itemA (by decide) (by decide)

end IsoDisplay
